import Mathlib

/-!
Verification of the `Signal<T>` rendezvous primitive of `src/signal.rs`.

The Rust code is shallowly embedded as follows.

* The atomic status byte is a `Nat` holding one of the four constants
  `UNLOCKED = 0`, `TERMINATED = 1`, `LOCKED = 2`, `LOCKED_STARVATION = 3`
  (the source's `const` items).
* The `KanalPtr<T>` slot is modelled, following the spec's design note on
  unchecked slot initialization, as an explicit filled/empty value
  `Option T`: `ptr.write d` sets it to `some d`, `ptr.read` returns its
  contents.
* The `KanalWaker` sum type is mirrored directly; an OS thread handle
  (`std::thread::Thread`) is abstracted to a `Nat` identifier, and an async
  `Waker` likewise.
* `unreachable!()` branches are modelled by returning `none` from an
  `Option`-valued embedding (a panic).
* Side effects of waking (`thread.unpark()`, `waker.wake()`) are recorded in
  an explicit effect list.
* The blocking wait loops interact with a status word that other threads
  mutate concurrently.  They are embedded in two complementary ways:
  - a closed-system run (`wait_timeout` on a `Signal` value) for executions
    in which no concurrent resolution happens while the waiter runs, where
    every atomic load sees the waiter's own last write and the run is
    deterministic;
  - an open-system run (`wait_timeout_tr`, `wait`, `async_blocking_wait`)
    over an environment trace `env : Nat → Nat` giving the value observed by
    the k-th atomic access of the routine, which over-approximates every
    concurrent interleaving.  Loops take a fuel argument; exhausted fuel
    (`none` / `fuelOut`) means the routine is still blocked, never a result.
-/

namespace Kanal

/-- Status constant `UNLOCKED: u8 = 0` (resolved with a value). -/
def UNLOCKED : Nat := 0

/-- Status constant `TERMINATED: u8 = 1` (resolved without a value). -/
def TERMINATED : Nat := 1

/-- Status constant `LOCKED: u8 = 2` (initial, pending). -/
def LOCKED : Nat := 2

/-- Status constant `LOCKED_STARVATION: u8 = 3` (pending, waiter escalated). -/
def LOCKED_STARVATION : Nat := 3

/-- `KanalWaker`: `None` (async, pre-registration), `Sync` (an unsynchronized
cell optionally holding a blocked thread's handle), or `Async` (a registered
task waker).  Thread handles and wakers are abstracted to `Nat` ids. -/
inductive KanalWaker where
  | none : KanalWaker
  | sync : Option Nat → KanalWaker
  | async : Nat → KanalWaker
deriving DecidableEq, Repr

/-- The `Signal<T>` struct: atomic status byte, slot, and waker. -/
structure Signal (T : Type) where
  state : Nat
  ptr : Option T
  waker : KanalWaker
deriving DecidableEq, Repr

/-- Observable side effects of a resolution: unparking an OS thread or
invoking a task waker. -/
inductive Effect where
  | unpark : Nat → Effect
  | wakeTask : Nat → Effect
deriving DecidableEq, Repr

/-- Replace the status field (an atomic store). -/
def setState {T : Type} (s : Signal T) (st : Nat) : Signal T :=
  ⟨st, s.ptr, s.waker⟩

/-- Replace the slot contents (`ptr.write` / `ptr.copy`). -/
def setPtr {T : Type} (s : Signal T) (p : Option T) : Signal T :=
  ⟨s.state, p, s.waker⟩

/-- `Signal::new_sync(ptr)`: status `LOCKED`, given slot, empty sync cell. -/
def new_sync {T : Type} (p : Option T) : Signal T :=
  ⟨LOCKED, p, KanalWaker.sync none⟩

/-- `Signal::new_async()`: status `LOCKED`, default slot, waker `None`. -/
def new_async {T : Type} : Signal T :=
  ⟨LOCKED, none, KanalWaker.none⟩

/-- The `Poll` type of `core::task`. -/
inductive Poll (α : Type) where
  | ready : α → Poll α
  | pending : Poll α
deriving DecidableEq, Repr

/-- `Signal::poll`: one relaxed load; if the value is below `LOCKED` it is
terminal: acquire-fence and return `Ready(v == UNLOCKED)`; else `Pending`. -/
def poll {T : Type} (s : Signal T) : Poll Bool :=
  let v := s.state
  if v < LOCKED then Poll.ready (v == UNLOCKED) else Poll.pending

/-- `Signal::assume_init`: read the slot (`self.ptr.read()`); `none` models
the undefined behaviour of reading an unset slot. -/
def assume_init {T : Type} (s : Signal T) : Option T :=
  s.ptr

/-- `Signal::is_terminated`: one relaxed load compared to `TERMINATED`. -/
def is_terminated {T : Type} (s : Signal T) : Bool :=
  s.state == TERMINATED

/-- `Signal::wake(this, state)`: on a `Sync` waker, compare-and-swap the
status from `LOCKED` to `state`; when the CAS fails, only if the notify cell
holds a thread handle does it store `state` (release) and unpark that thread
— with an empty cell it does nothing.  On an `Async` waker it stores
unconditionally and invokes the waker.  The `None` waker branch is
`unreachable!()`, modelled as `none`. -/
def wake {T : Type} (s : Signal T) (st : Nat) :
    Option (Signal T × List Effect) :=
  match s.waker with
  | KanalWaker.sync cell =>
      if s.state = LOCKED then
        some (setState s st, [])
      else
        match cell with
        | some th => some (setState s st, [Effect.unpark th])
        | none => some (s, [])
  | KanalWaker.async w => some (setState s st, [Effect.wakeTask w])
  | KanalWaker.none => none

/-- `Signal::send(this, d)`: write `d` into the slot, then
`wake(this, UNLOCKED)`. -/
def send {T : Type} (s : Signal T) (d : T) :
    Option (Signal T × List Effect) :=
  wake (setPtr s (some d)) UNLOCKED

/-- `Signal::send_copy(this, d)`: copy the pointee into the slot, then
`wake(this, UNLOCKED)`. -/
def send_copy {T : Type} (s : Signal T) (d : T) :
    Option (Signal T × List Effect) :=
  wake (setPtr s (some d)) UNLOCKED

/-- `Signal::recv(this)`: read the slot, then `wake(this, UNLOCKED)`, and
return the value read. -/
def recv {T : Type} (s : Signal T) :
    Option (Option T × Signal T × List Effect) :=
  let r := s.ptr
  (wake s UNLOCKED).map (fun q => (r, q.1, q.2))

/-- `Signal::terminate(this)`: `wake(this, TERMINATED)`; the slot is not
accessed. -/
def terminate {T : Type} (s : Signal T) :
    Option (Signal T × List Effect) :=
  wake s TERMINATED

/-- Modelled from the spec: the backoff module's
`spin(predicate, max_iterations)` (`backoff::spin_option_yield_only` is not
under `src/`): a bounded busy loop invoking the predicate until it signals
completion or the iteration budget is exhausted, yielding to the scheduler
between checks.  The predicate is indexed by the call number so that each
call can observe a fresh status value. -/
def spin_go (f : Nat → Option Bool) (i : Nat) : Nat → Option Bool
  | 0 => none
  | n + 1 =>
      match f i with
      | some v => some v
      | none => spin_go f (i + 1) n

/-- Modelled from the spec: `backoff::spin_option_yield_only(check, budget)`
starts invoking the check at call index `0`. -/
def spin_option_yield_only (f : Nat → Option Bool) (budget : Nat) :
    Option Bool :=
  spin_go f 0 budget

/-- The closure `wait` passes to the spin: one relaxed load; a value below
`LOCKED` is terminal, acquire-fence and report `Some(v == UNLOCKED)`;
otherwise `None`.  `env i` is the status observed by the i-th access. -/
def wait_check (env : Nat → Nat) (i : Nat) : Option Bool :=
  let v := env i
  if v < LOCKED then some (v == UNLOCKED) else none

/-- Result of a run of `wait`: a returned boolean together with the number
of `park` calls it performed, fuel exhaustion while still blocked, or a
panic from an `unreachable!()` branch. -/
inductive WaitRes where
  | ok : Bool → Nat → WaitRes
  | fuelOut : WaitRes
  | panicked : WaitRes
deriving DecidableEq, Repr

/-- The park loop of `wait` after a successful escalation CAS: park, then
one relaxed load; if terminal, acquire-fence and return `v == UNLOCKED`;
otherwise park again (wakeups may be spurious).  `i` indexes the next
atomic access; the fuel bounds the number of parks in the modelled run. -/
def wait_park_loop (env : Nat → Nat) (i : Nat) (parks : Nat) :
    Nat → WaitRes
  | 0 => WaitRes.fuelOut
  | n + 1 =>
      let v := env i
      if v < LOCKED then WaitRes.ok (v == UNLOCKED) (parks + 1)
      else wait_park_loop env (i + 1) (parks + 1) n

/-- `Signal::wait` over an observation trace: spin with budget 25 on
`wait_check` (atomic accesses 0..24); if unresolved, on a `Sync` waker
publish the current thread `tid` into the notify cell, then
compare-and-swap `LOCKED → LOCKED_STARVATION` (access 25): on success park
(accesses 26..), on failure return `v == UNLOCKED` for the observed `v`
without parking.  The `None`/`Async` waker branches are `unreachable!()`.
Returns the result together with the waker as left by the run. -/
def wait (w : KanalWaker) (tid : Nat) (env : Nat → Nat) (fuel : Nat) :
    WaitRes × KanalWaker :=
  match spin_option_yield_only (wait_check env) 25 with
  | some res => (WaitRes.ok res 0, w)
  | none =>
      match w with
      | KanalWaker.sync _cell =>
          let w2 := KanalWaker.sync (some tid)
          if env 25 = LOCKED then (wait_park_loop env 26 0 fuel, w2)
          else (WaitRes.ok (env 25 == UNLOCKED) 0, w2)
      | KanalWaker.none => (WaitRes.panicked, w)
      | KanalWaker.async _ => (WaitRes.panicked, w)

/-- The deadline loop of `Signal::wait_timeout` in a closed-system run (no
concurrent writer while the waiter runs, so every load sees the waiter's
own state): load, return if terminal; once the deadline has passed
(`parks` park_timeout iterations have elapsed) the final acquire load and
the loop load see the same unchanged status, and the loop returns whether
it is `UNLOCKED`. -/
def wt_loop {T : Type} (s : Signal T) : Nat → Bool
  | 0 => s.state == UNLOCKED
  | n + 1 =>
      if s.state < LOCKED then s.state == UNLOCKED
      else wt_loop s n

/-- `Signal::wait_timeout` in a closed-system run: fast check; then
compare-and-swap `LOCKED → LOCKED_STARVATION` — note the source publishes
no thread handle into the notify cell before this CAS — on success enter
the deadline loop with the escalated state, on failure return
`v == UNLOCKED`.  Returns the result and the signal as left by the run. -/
def wait_timeout {T : Type} (s : Signal T) (parks : Nat) :
    Bool × Signal T :=
  if s.state < LOCKED then (s.state == UNLOCKED, s)
  else if s.state = LOCKED then
    let s2 := setState s LOCKED_STARVATION
    (wt_loop s2 parks, s2)
  else
    (s.state == UNLOCKED, s)

/-- The deadline loop of `Signal::wait_timeout` over an observation trace:
at access index `i`, load `env i`; if terminal, return `v == UNLOCKED`; if
the deadline has passed (`expired i`), perform one final acquire load
(access `i + 1`) and return whether it is `UNLOCKED`; otherwise
park_timeout and loop. -/
def wt_tr_loop (env : Nat → Nat) (expired : Nat → Bool) (i : Nat) :
    Nat → Option Bool
  | 0 => none
  | n + 1 =>
      let v := env i
      if v < LOCKED then some (v == UNLOCKED)
      else if expired i then some (env (i + 1) == UNLOCKED)
      else wt_tr_loop env expired (i + 2) n

/-- `Signal::wait_timeout` over an observation trace: fast check (access
0); compare-and-swap `LOCKED → LOCKED_STARVATION` observing `env 1`; on
success the deadline loop starts at access 2, on failure return
`v == UNLOCKED` for the observed `v`. -/
def wait_timeout_tr (env : Nat → Nat) (expired : Nat → Bool)
    (fuel : Nat) : Option Bool :=
  let v := env 0
  if v < LOCKED then some (v == UNLOCKED)
  else if env 1 = LOCKED then wt_tr_loop env expired 2 fuel
  else some (env 1 == UNLOCKED)

/-- The yield-and-recheck loop of `Signal::async_blocking_wait`:
`backoff::yield_os()`, then one relaxed load; terminal values return. -/
def abw_spin (env : Nat → Nat) (i : Nat) : Nat → Option Bool
  | 0 => none
  | n + 1 =>
      let v := env i
      if v < LOCKED then some (v == UNLOCKED)
      else abw_spin env (i + 1) n

/-- The sleep loop of `Signal::async_blocking_wait`: sleep for `t`
nanoseconds, then one relaxed load; terminal values return; otherwise
double `t` if it is still below `1 << 18` and loop.  Besides the result it
returns the list of sleep durations performed, in order. -/
def abw_sleep_loop (env : Nat → Nat) (i : Nat) (t : Nat) :
    Nat → Option Bool × List Nat
  | 0 => (none, [])
  | n + 1 =>
      let v := env i
      if v < LOCKED then (some (v == UNLOCKED), [t])
      else
        let t2 := if t < 2 ^ 18 then t * 2 else t
        let r := abw_sleep_loop env (i + 1) t2 n
        (r.1, t :: r.2)

/-- `Signal::async_blocking_wait` over an observation trace: fast check
(access 0); 32 yield-and-recheck iterations (accesses 1..32); then the
sleep loop starting at `sleep_time = 1 << 10` nanoseconds (accesses 33..).
Returns the result and the list of sleep durations performed. -/
def async_blocking_wait (env : Nat → Nat) (fuel : Nat) :
    Option Bool × List Nat :=
  let v := env 0
  if v < LOCKED then (some (v == UNLOCKED), [])
  else
    match abw_spin env 1 32 with
    | some r => (some r, [])
    | none => abw_sleep_loop env 33 (2 ^ 10) fuel

/-- Claim C4: `poll` performs a single non-blocking check: it returns
`Pending` whenever the status is a pending value (`LOCKED` or
`LOCKED_STARVATION`), `Ready true` when the status is `UNLOCKED`, and
`Ready false` when it is `TERMINATED`. -/
theorem poll_matches_status (s : Signal Nat) :
    ((s.state = LOCKED ∨ s.state = LOCKED_STARVATION) →
        poll s = Poll.pending)
    ∧ (s.state = UNLOCKED → poll s = Poll.ready true)
    ∧ (s.state = TERMINATED → poll s = Poll.ready false) := by
  refine ⟨fun h => ?_, fun h => ?_, fun h => ?_⟩
  · rcases h with h | h <;>
      simp [poll, h, LOCKED, LOCKED_STARVATION]
  · simp [poll, h, UNLOCKED, LOCKED]
  · simp [poll, h, TERMINATED, UNLOCKED, LOCKED]

/-- Witness for C4 at concrete statuses. -/
theorem poll_matches_status_witness :
    poll (⟨LOCKED, none, KanalWaker.sync none⟩ : Signal Nat) = Poll.pending
    ∧ poll (⟨UNLOCKED, some 7, KanalWaker.sync none⟩ : Signal Nat) =
        Poll.ready true
    ∧ poll (⟨TERMINATED, none, KanalWaker.sync none⟩ : Signal Nat) =
        Poll.ready false :=
  ⟨(poll_matches_status ⟨LOCKED, none, KanalWaker.sync none⟩).1 (Or.inl rfl),
   (poll_matches_status ⟨UNLOCKED, some 7, KanalWaker.sync none⟩).2.1 rfl,
   (poll_matches_status ⟨TERMINATED, none, KanalWaker.sync none⟩).2.2 rfl⟩

/-- Helper: a successful `wake` never touches the slot or the waker. -/
theorem wake_frame {T : Type} (s : Signal T) (st : Nat)
    (r : Signal T × List Effect) (h : wake s st = some r) :
    r.1.ptr = s.ptr ∧ r.1.waker = s.waker := by
  obtain ⟨sst, p, w⟩ := s
  cases w with
  | none => simp [wake] at h
  | sync cell =>
      simp only [wake] at h
      split at h
      · injection h with h2
        subst h2
        exact ⟨rfl, rfl⟩
      · cases cell with
        | none =>
            injection h with h2
            subst h2
            exact ⟨rfl, rfl⟩
        | some th =>
            injection h with h2
            subst h2
            exact ⟨rfl, rfl⟩
  | async wk =>
      simp only [wake] at h
      injection h with h2
      subst h2
      exact ⟨rfl, rfl⟩

/-- Helper: from a non-escalated pending signal (`LOCKED`), the signaler's
CAS succeeds and `wake` installs exactly the requested terminal status. -/
theorem wake_state_of_locked {T : Type} (s : Signal T) (st : Nat)
    (hs : s.state = LOCKED) (r : Signal T × List Effect)
    (h : wake s st = some r) : r.1.state = st := by
  obtain ⟨sst, p, w⟩ := s
  simp only at hs
  subst hs
  cases w with
  | none => simp [wake] at h
  | sync cell =>
      simp only [wake, if_pos rfl] at h
      injection h with h2
      subst h2
      rfl
  | async wk =>
      simp only [wake] at h
      injection h with h2
      subst h2
      rfl

/-- Claim C1 (code bug): a send after an expired timed wait is silently
lost.  `wait_timeout` on a fresh sync signal that times out leaves status
`LOCKED_STARVATION` with an empty notify cell; a subsequent `send 42`
writes the slot but — because the CAS fails and the cell is empty — leaves
the status pending and produces no unpark effect; `poll` on the resulting
signal stays `Pending` forever, and a later `wait` returns `false` (its
escalation CAS fails observing `LOCKED_STARVATION`), so the terminal
outcome `UNLOCKED` is never observable and no waiter is woken. -/
theorem send_lost_after_timeout :
    wait_timeout (new_sync (none : Option Nat)) 0
      = (false, ⟨LOCKED_STARVATION, none, KanalWaker.sync none⟩)
    ∧ send (⟨LOCKED_STARVATION, (none : Option Nat),
          KanalWaker.sync none⟩ : Signal Nat) 42
      = some (⟨LOCKED_STARVATION, some 42, KanalWaker.sync none⟩, [])
    ∧ poll (⟨LOCKED_STARVATION, some 42,
          KanalWaker.sync none⟩ : Signal Nat) = Poll.pending
    ∧ (wait (KanalWaker.sync none) 0 (fun _ => LOCKED_STARVATION) 0).1
      = WaitRes.ok false 0 :=
  ⟨rfl, rfl, rfl, rfl⟩

/-- Claim C2 (code bug): `wait` publishes the current thread's handle into
the notify cell before its escalation CAS (here thread 7, left in the cell
while the waiter parks), but `wait_timeout` does not: after its successful
escalation CAS (status `LOCKED_STARVATION`) the notify cell of the signal
is still empty. -/
theorem wait_timeout_skips_publish :
    wait (KanalWaker.sync none) 7 (fun _ => LOCKED) 0
      = (WaitRes.fuelOut, KanalWaker.sync (some 7))
    ∧ (wait_timeout (new_sync (none : Option Nat)) 0).2.state
      = LOCKED_STARVATION
    ∧ (wait_timeout (new_sync (none : Option Nat)) 0).2.waker
      = KanalWaker.sync none :=
  ⟨rfl, rfl, rfl⟩

/-- Claim C3 (code bug): on the pending signal left by a timed-out
`wait_timeout` (status `LOCKED_STARVATION`, empty notify cell), `send`
returns with the status still `LOCKED_STARVATION`, not the terminal
`UNLOCKED`, and with no wake effect. -/
theorem send_leaves_escalated_pending :
    (send ((wait_timeout (new_sync (none : Option Nat)) 0).2) 9).map
        (fun r => (r.1.state, r.2))
      = some (LOCKED_STARVATION, [])
    ∧ LOCKED_STARVATION ≠ UNLOCKED :=
  ⟨rfl, by decide⟩

/-- Claim C9 (code bug): `terminate` indeed never touches the slot (the
slot still holds `some 5` afterwards), but on the pending signal left by a
timed-out `wait_timeout` it also fails to transition the status to
`TERMINATED` — the status stays `LOCKED_STARVATION` and no notification
effect is produced. -/
theorem terminate_leaves_escalated_pending :
    terminate ((wait_timeout (new_sync (some 5 : Option Nat)) 0).2)
      = some (⟨LOCKED_STARVATION, some 5, KanalWaker.sync none⟩, [])
    ∧ LOCKED_STARVATION ≠ TERMINATED :=
  ⟨rfl, by decide⟩

/-- Claim C5: round trip.  Delivering `v` into a pending signal via `send`
writes `v` into the slot (and `wake` never modifies the slot afterwards), a
destructive read (`assume_init`) yields exactly `v`, and from the
non-escalated pending status the transition to `UNLOCKED` is installed. -/
theorem send_round_trip (s : Signal Nat) (v : Nat)
    (_hp : s.state = LOCKED ∨ s.state = LOCKED_STARVATION)
    (r : Signal Nat × List Effect) (h : send s v = some r) :
    r.1.ptr = some v ∧ assume_init r.1 = some v
    ∧ (s.state = LOCKED → r.1.state = UNLOCKED) := by
  have hf := wake_frame (setPtr s (some v)) UNLOCKED r h
  refine ⟨hf.1, hf.1, fun hl => ?_⟩
  exact wake_state_of_locked (setPtr s (some v)) UNLOCKED hl r h

/-- Witness for C5: delivering `3` into a fresh sync signal. -/
theorem send_round_trip_witness :
    ((⟨UNLOCKED, some 3, KanalWaker.sync none⟩ : Signal Nat)).ptr = some 3
    ∧ assume_init
        (⟨UNLOCKED, some 3, KanalWaker.sync none⟩ : Signal Nat) = some 3
    ∧ ((⟨UNLOCKED, some 3, KanalWaker.sync none⟩ : Signal Nat)).state
      = UNLOCKED := by
  have h := send_round_trip (new_sync none) 3 (Or.inl rfl)
    (⟨UNLOCKED, some 3, KanalWaker.sync none⟩, []) rfl
  exact ⟨h.1, h.2.1, h.2.2 rfl⟩

/-- Helper: every value the timeout deadline loop can return is of the form
`v == UNLOCKED` for some observed status `v`; if no observation is ever
`UNLOCKED`, the loop never returns `true`. -/
theorem wt_tr_loop_no_false (env : Nat → Nat) (expired : Nat → Bool)
    (hnu : ∀ i, env i ≠ UNLOCKED) :
    ∀ fuel i, wt_tr_loop env expired i fuel ≠ some true := by
  intro fuel
  induction fuel with
  | zero => intro i; simp [wt_tr_loop]
  | succ n ih =>
      intro i
      simp only [wt_tr_loop]
      split
      · intro hc
        injection hc with hc2
        exact hnu i (eq_of_beq hc2)
      · split
        · intro hc
          injection hc with hc2
          exact hnu (i + 1) (eq_of_beq hc2)
        · exact ih (i + 2)

/-- Claim C6: `wait_timeout` never reports success without a resolution.
First, when the deadline has already passed at the first deadline-loop
check and the status is still pending, the routine performs one final
acquire load (access 3) and returns exactly whether that load observes
`UNLOCKED`.  Second, for every observation trace in which no load ever
observes `UNLOCKED` (in particular every execution in which no resolution
operation ever stored `UNLOCKED`), `wait_timeout` cannot return `true`. -/
theorem wait_timeout_no_false_success (env : Nat → Nat)
    (expired : Nat → Bool) (fuel : Nat) :
    (LOCKED ≤ env 0 → env 1 = LOCKED → LOCKED ≤ env 2 →
      expired 2 = true → 0 < fuel →
      wait_timeout_tr env expired fuel = some (env 3 == UNLOCKED))
    ∧ ((∀ i, env i ≠ UNLOCKED) →
      wait_timeout_tr env expired fuel ≠ some true) := by
  constructor
  · intro h0 h1 h2 hexp hfuel
    obtain ⟨n, rfl⟩ : ∃ n, fuel = n + 1 := by
      cases fuel with
      | zero => omega
      | succ n => exact ⟨n, rfl⟩
    simp only [wait_timeout_tr, wt_tr_loop, if_neg (Nat.not_lt.mpr h0),
      if_pos h1, if_neg (Nat.not_lt.mpr h2), hexp]
    simp
  · intro hnu
    simp only [wait_timeout_tr]
    split
    · intro hc
      injection hc with hc2
      exact hnu 0 (eq_of_beq hc2)
    · split
      · exact wt_tr_loop_no_false env expired hnu fuel 2
      · intro hc
        injection hc with hc2
        exact hnu 1 (eq_of_beq hc2)

/-- Witness for C6: a trace pending forever with the deadline already
expired; the bounded wait returns `false`, never `true`. -/
theorem wait_timeout_no_false_success_witness :
    wait_timeout_tr (fun _ => LOCKED) (fun _ => true) 1 = some false
    ∧ wait_timeout_tr (fun _ => LOCKED) (fun _ => true) 1 ≠ some true := by
  have h := wait_timeout_no_false_success (fun _ => LOCKED)
    (fun _ => true) 1
  exact ⟨h.1 (by decide) rfl (by decide) rfl (by decide),
    h.2 (fun i => by decide)⟩

/-- Helper: the spin returns `none` when the predicate fails on its whole
budget. -/
theorem spin_go_eq_none (f : Nat → Option Bool) :
    ∀ n i, (∀ j, j < n → f (i + j) = none) → spin_go f i n = none := by
  intro n
  induction n with
  | zero => intro i _; rfl
  | succ n ih =>
      intro i h
      have h0 : f i = none := by
        have := h 0 (Nat.succ_pos n)
        simpa using this
      simp only [spin_go, h0]
      apply ih (i + 1)
      intro j hj
      have h2 := h (j + 1) (by omega)
      have heq : i + 1 + j = i + (j + 1) := by omega
      rw [heq]
      exact h2

/-- Helper: the spin resolves when the predicate fires within the budget. -/
theorem spin_go_isSome (f : Nat → Option Bool) :
    ∀ n i, (∃ j, j < n ∧ (f (i + j)).isSome) →
      (spin_go f i n).isSome := by
  intro n
  induction n with
  | zero =>
      intro i h
      obtain ⟨j, hj, _⟩ := h
      exact absurd hj (Nat.not_lt_zero j)
  | succ n ih =>
      intro i h
      cases hf : f i with
      | some v => simp [spin_go, hf]
      | none =>
          simp only [spin_go, hf]
          apply ih (i + 1)
          obtain ⟨j, hj, hs⟩ := h
          cases j with
          | zero =>
              rw [Nat.add_zero] at hs
              rw [hf] at hs
              simp at hs
          | succ j =>
              refine ⟨j, by omega, ?_⟩
              have heq : i + 1 + j = i + (j + 1) := by omega
              rw [heq]
              exact hs


/-- Claim C7: `wait` first performs a fast relaxed check (the first call of
the budget-25 spin) and returns immediately — no park, waker untouched —
when the status is already terminal; any terminal observation within the 25
spin checks resolves the wait without escalation; and when all 25 checks
see a pending status, `wait` escalates: if the escalation CAS (access 25)
fails, it does not block (zero parks) and returns exactly whether the
status value it observed is `UNLOCKED`. -/
theorem wait_spin_and_cas_fail (env : Nat → Nat) (c : Option Nat)
    (tid : Nat) (fuel : Nat) :
    (env 0 < LOCKED →
      wait (KanalWaker.sync c) tid env fuel
        = (WaitRes.ok (env 0 == UNLOCKED) 0, KanalWaker.sync c))
    ∧ ((∃ j, j < 25 ∧ env j < LOCKED) →
      ∃ b, wait (KanalWaker.sync c) tid env fuel
        = (WaitRes.ok b 0, KanalWaker.sync c))
    ∧ ((∀ i, i < 25 → LOCKED ≤ env i) → env 25 ≠ LOCKED →
      wait (KanalWaker.sync c) tid env fuel
        = (WaitRes.ok (env 25 == UNLOCKED) 0,
            KanalWaker.sync (some tid))) := by
  refine ⟨fun h0 => ?_, fun hex => ?_, fun hall h25 => ?_⟩
  · have hs : spin_option_yield_only (wait_check env) 25
        = some (env 0 == UNLOCKED) := by
      simp [spin_option_yield_only, spin_go, wait_check, if_pos h0]
    simp [wait, hs]
  · have hs : (spin_option_yield_only (wait_check env) 25).isSome := by
      apply spin_go_isSome
      obtain ⟨j, hj, hterm⟩ := hex
      refine ⟨j, hj, ?_⟩
      simp [wait_check, if_pos hterm]
    obtain ⟨b, hb⟩ := Option.isSome_iff_exists.mp hs
    exact ⟨b, by simp [wait, hb]⟩
  · have hs : spin_option_yield_only (wait_check env) 25 = none := by
      apply spin_go_eq_none
      intro j hj
      simp only [Nat.zero_add, wait_check]
      rw [if_neg (Nat.not_lt.mpr (hall j hj))]
    simp [wait, hs, if_neg h25]

/-- Witness for C7: a trace pending on all 25 spin checks whose escalation
CAS observes `UNLOCKED`; the wait returns `true` without parking, with the
thread handle published. -/
theorem wait_spin_and_cas_fail_witness :
    wait (KanalWaker.sync none) 7
        (fun i => if i = 25 then UNLOCKED else LOCKED) 0
      = (WaitRes.ok true 0, KanalWaker.sync (some 7)) := by
  have h := wait_spin_and_cas_fail
    (fun i => if i = 25 then UNLOCKED else LOCKED) none 7 0
  have h2 := h.2.2 (by decide) (by decide)
  rw [h2]
  decide

/-- Helper: one step of the sleep-time update (`double while below 1 << 18`)
maps the closed form `min (2 ^ (10 + j)) (2 ^ 18)` to the same form at
`j + 1`. -/
theorem backoff_step (j : Nat) :
    (if min (2 ^ (10 + j)) (2 ^ 18) < 2 ^ 18
      then min (2 ^ (10 + j)) (2 ^ 18) * 2
      else min (2 ^ (10 + j)) (2 ^ 18))
    = min (2 ^ (10 + (j + 1))) (2 ^ 18) := by
  rcases le_or_lt (10 + j) 17 with hle | hgt
  · have h1 : (2 : Nat) ^ (10 + j) < 2 ^ 18 :=
      lt_of_le_of_lt (Nat.pow_le_pow_right (by norm_num) hle) (by norm_num)
    rw [min_eq_left (Nat.le_of_lt h1), if_pos h1]
    have h2 : (2 : Nat) ^ (10 + j) * 2 = 2 ^ (10 + (j + 1)) := by
      rw [← pow_succ]
      congr 1
    rw [h2, min_eq_left]
    exact Nat.pow_le_pow_right (by norm_num) (by omega)
  · have h1 : (2 : Nat) ^ 18 ≤ 2 ^ (10 + j) :=
      Nat.pow_le_pow_right (by norm_num) (by omega)
    rw [min_eq_right h1, if_neg (lt_irrefl _), min_eq_right]
    exact Nat.pow_le_pow_right (by norm_num) (by omega)

/-- Helper: the k-th sleep performed by the sleep loop, entered with sleep
time `min (2 ^ (10 + j)) (2 ^ 18)`, lasts `min (2 ^ (10 + j + k)) (2 ^ 18)`
nanoseconds. -/
theorem abw_sleep_loop_get (env : Nat → Nat) :
    ∀ n i j k,
      k < ((abw_sleep_loop env i (min (2 ^ (10 + j)) (2 ^ 18)) n).2).length →
      ((abw_sleep_loop env i (min (2 ^ (10 + j)) (2 ^ 18)) n).2).get? k
        = some (min (2 ^ (10 + j + k)) (2 ^ 18)) := by
  intro n
  induction n with
  | zero => intro i j k hk; simp [abw_sleep_loop] at hk
  | succ n ih =>
      intro i j k hk
      by_cases hv : env i < LOCKED
      · simp only [abw_sleep_loop, if_pos hv] at hk ⊢
        have hk0 : k = 0 := by simpa using Nat.lt_one_iff.mp (by simpa using hk)
        subst hk0
        simp
      · simp only [abw_sleep_loop, if_neg hv] at hk ⊢
        rw [backoff_step j] at hk ⊢
        cases k with
        | zero => simp
        | succ k =>
            rw [List.get?_cons_succ]
            have hk2 :
                k < ((abw_sleep_loop env (i + 1)
                  (min (2 ^ (10 + (j + 1))) (2 ^ 18)) n).2).length := by
              simpa using Nat.lt_of_succ_lt_succ (by simpa using hk)
            rw [ih (i + 1) (j + 1) k hk2]
            have hidx : 10 + (j + 1) + k = 10 + j + (k + 1) := by omega
            rw [hidx]

/-- Helper: the 32-iteration yield-and-recheck loop stays unresolved while
every observed status is pending. -/
theorem abw_spin_eq_none (env : Nat → Nat) :
    ∀ n i, (∀ j, i ≤ j → j < i + n → LOCKED ≤ env j) →
      abw_spin env i n = none := by
  intro n
  induction n with
  | zero => intro i _; rfl
  | succ n ih =>
      intro i h
      have h0 : ¬ env i < LOCKED :=
        Nat.not_lt.mpr (h i (Nat.le_refl i) (by omega))
      simp only [abw_spin, if_neg h0]
      exact ih (i + 1) (fun j hj1 hj2 => h j (by omega) (by omega))

/-- Helper: the sleep trace of `async_blocking_wait` is either empty (the
fast check or the 32 yield-and-recheck iterations resolved it) or exactly
the trace of the sleep loop entered at access 33 with `1 << 10`. -/
theorem abw_list_cases (env : Nat → Nat) (fuel : Nat) :
    (async_blocking_wait env fuel).2 = []
    ∨ (async_blocking_wait env fuel)
      = abw_sleep_loop env 33 (2 ^ 10) fuel := by
  by_cases h0 : env 0 < LOCKED
  · left
    simp [async_blocking_wait, if_pos h0]
  · cases hs : abw_spin env 1 32 with
    | some r =>
        left
        simp [async_blocking_wait, if_neg h0, hs]
    | none =>
        right
        simp [async_blocking_wait, if_neg h0, hs]

/-- Claim C8: in `async_blocking_wait`, once the fast check and the 32
yield-and-recheck iterations (accesses 0..32) have all seen a pending
status, the routine enters the sleep loop with `sleep_time = 1 << 10`
nanoseconds; the k-th sleep of any run lasts exactly
`min (2 ^ (10 + k)) (2 ^ 18)` nanoseconds — starting at 1024, doubling each
retry, and capped at `2 ^ 18` as an invariant of every iteration — and
every status recheck of the sleep loop is preceded by its sleep (each
emitted duration corresponds to one `backoff::sleep` before the next
load). -/
theorem async_blocking_wait_backoff (env : Nat → Nat) (fuel : Nat) :
    (∀ k, k < ((async_blocking_wait env fuel).2).length →
      ((async_blocking_wait env fuel).2).get? k
        = some (min (2 ^ (10 + k)) (2 ^ 18)))
    ∧ ((∀ i, i ≤ 32 → LOCKED ≤ env i) →
      async_blocking_wait env fuel = abw_sleep_loop env 33 (2 ^ 10) fuel) := by
  have hmin : (2 : Nat) ^ 10 = min (2 ^ (10 + 0)) (2 ^ 18) := by norm_num
  constructor
  · intro k hk
    rcases abw_list_cases env fuel with hl | hl
    · rw [hl] at hk
      simp at hk
    · rw [hl] at hk ⊢
      rw [hmin] at hk ⊢
      have hres := abw_sleep_loop_get env fuel 33 0 k hk
      rw [hres]
  · intro hall
    have h0 : ¬ env 0 < LOCKED := Nat.not_lt.mpr (hall 0 (by omega))
    have hs : abw_spin env 1 32 = none := by
      apply abw_spin_eq_none
      intro j hj1 hj2
      exact hall j (by omega)
    simp [async_blocking_wait, if_neg h0, hs]

/-- Witness for C8: a forever-pending trace with fuel for two sleeps; the
first sleep lasts `min (2 ^ 10) (2 ^ 18) = 1024` nanoseconds and the run
goes through the sleep loop entered at access 33. -/
theorem async_blocking_wait_backoff_witness :
    ((async_blocking_wait (fun _ => LOCKED) 2).2).get? 0
      = some (min (2 ^ (10 + 0)) (2 ^ 18))
    ∧ async_blocking_wait (fun _ => LOCKED) 2
      = abw_sleep_loop (fun _ => LOCKED) 33 (2 ^ 10) 2 := by
  have h := async_blocking_wait_backoff (fun _ => LOCKED) 2
  exact ⟨h.1 0 (by decide), h.2 (fun i _ => Nat.le_refl LOCKED)⟩

/-- Helper: the park loop of `wait` never panics: it either returns a
boolean or is still blocked when the fuel runs out. -/
theorem wait_park_loop_ne_panicked (env : Nat → Nat) :
    ∀ n i parks, wait_park_loop env i parks n ≠ WaitRes.panicked := by
  intro n
  induction n with
  | zero => intro i parks; simp [wait_park_loop]
  | succ n ih =>
      intro i parks
      simp only [wait_park_loop]
      split
      · simp
      · exact ih (i + 1) (parks + 1)

/-- Claim C10: a signal built by `new_sync` carries the `Sync` waker, and
every modelled operation preserves the waker (`wake` leaves it unchanged,
`wait_timeout` leaves it unchanged, `wait` keeps it a `Sync` cell), so on
sync-constructed signals `wake` never hits its `unreachable!()` branch
(it always returns a result) and `wait` never panics.  A signal built by
`new_async` instead carries the `None` waker, and `wait` on it panics as
soon as the bounded spin fails to observe a resolution — `wait` is total
only under the sync-construction precondition. -/
theorem sync_construction_totality (T : Type) (p : Option T)
    (s : Signal T) (st : Nat) (cw c : Option Nat) (tid fuel : Nat)
    (env : Nat → Nat) :
    (new_sync p).waker = KanalWaker.sync none
    ∧ (new_async : Signal T).waker = KanalWaker.none
    ∧ (∀ r, wake s st = some r → r.1.waker = s.waker)
    ∧ (s.waker = KanalWaker.sync cw → (wake s st).isSome = true)
    ∧ (wait_timeout s fuel).2.waker = s.waker
    ∧ (∃ c2, (wait (KanalWaker.sync c) tid env fuel).2
        = KanalWaker.sync c2)
    ∧ (wait (KanalWaker.sync c) tid env fuel).1 ≠ WaitRes.panicked
    ∧ ((∀ i, i < 25 → LOCKED ≤ env i) →
        (wait KanalWaker.none tid env fuel).1 = WaitRes.panicked) := by
  refine ⟨rfl, rfl, fun r h => (wake_frame s st r h).2, ?_, ?_, ?_, ?_, ?_⟩
  · intro hw
    obtain ⟨sst, sp, w⟩ := s
    simp only at hw
    subst hw
    simp only [wake]
    split
    · rfl
    · cases cw <;> rfl
  · simp only [wait_timeout]
    split
    · rfl
    · split
      · rfl
      · rfl
  · cases hs : spin_option_yield_only (wait_check env) 25 with
    | some res => exact ⟨c, by simp [wait, hs]⟩
    | none =>
        refine ⟨some tid, ?_⟩
        simp only [wait, hs]
        split <;> rfl
  · cases hs : spin_option_yield_only (wait_check env) 25 with
    | some res => simp [wait, hs]
    | none =>
        simp only [wait, hs]
        split
        · exact wait_park_loop_ne_panicked env fuel 26 0
        · simp
  · intro hall
    have hs : spin_option_yield_only (wait_check env) 25 = none := by
      apply spin_go_eq_none
      intro j hj
      simp only [Nat.zero_add, wait_check]
      rw [if_neg (Nat.not_lt.mpr (hall j hj))]
    simp [wait, hs]

/-- Witness for C10: `wake` succeeds on a fresh sync signal, while `wait`
on the `None` waker of an async-constructed signal with a forever-pending
status panics. -/
theorem sync_construction_totality_witness :
    (wake (⟨LOCKED, (none : Option Nat), KanalWaker.sync none⟩ : Signal Nat)
        UNLOCKED).isSome = true
    ∧ (wait KanalWaker.none 0 (fun _ => LOCKED) 0).1 = WaitRes.panicked := by
  have h := sync_construction_totality Nat none
    (⟨LOCKED, none, KanalWaker.sync none⟩ : Signal Nat) UNLOCKED none none
    0 0 (fun _ => LOCKED)
  exact ⟨h.2.2.2.1 rfl, h.2.2.2.2.2.2.2 (fun i _ => Nat.le_refl LOCKED)⟩

end Kanal
